import Mathlib

/-!
Shallow embedding of the FFF-Tutor-Todd-Bot sources.

The repository holds several snapshots of the same Telegram bot.  The most
evolved one (the second document of src/unnamed/part_000) contributes
`getDayOfYear`, `getDailyItem`, `buildFatherbotMessage`, `buildStudentMessage`,
`safeSendMessage`, the quarantine set `invalidGroups`, the daily-broadcast cron
handler, `getThread`, `sendToAssistant` and the webhook handler.  src/index.js
is a variant whose `sendToAssistant` and webhook handler differ observably;
those are embedded under the suffix `Index`.

External effects are made explicit: the Telegram send capability is an oracle
(a list of responses consumed attempt by attempt), the OpenAI run is a status
string plus a list of output messages, and timers are ignored (the retry sleep
does not change any observable state).
-/

-- ---------------------------------------------------------------------------
-- Deterministic content picker (src/unnamed/part_000, getDayOfYear / getDailyItem)
-- ---------------------------------------------------------------------------

/-- Day-of-year ordinal.  The source computes
`Math.floor((now - startOfYear) / oneDay)` with `oneDay = 1000*60*60*24`
milliseconds; it is modelled on the elapsed milliseconds since year start. -/
def getDayOfYear (msSinceYearStart : Nat) : Nat :=
  msSinceYearStart / (1000 * 60 * 60 * 24)

/-- The picker `getDailyItem(arr, seed, groupId)` from part_000.  The JS `%`
operator is truncating remainder, so it is modelled with `Int.tmod`; the call
`getDayOfYear()` inside the source body is made explicit as the `day`
parameter.  `Math.abs(Number(groupId) || 0)` is `|groupId|` for an integer
destination identity.  `arr[index]` is modelled with `List.getD`, whose
default is never used because the index is proved in bounds. -/
def getDailyItem (day : Int) (arr : List String) (seed : Int) (groupId : Int) : String :=
  if arr.length = 0 then ""
  else
    let base : Int := day + seed + |groupId|
    let n : Int := arr.length
    let index : Int := (base.tmod n + n).tmod n
    arr.getD index.toNat ""

/-- One named prompt table of the content JSON (six ordered lists of strings). -/
structure RolePrompts where
  intros : List String
  motivational_titles : List String
  quotes : List String
  reflection_templates : List String
  checkins : List String
  closing_messages : List String
deriving Repr, DecidableEq

/-- The whole content file tutor_todd_daily_checkins.json: one table per role. -/
structure Prompts where
  fatherbot : RolePrompts
  student : RolePrompts
deriving Repr, DecidableEq

/-- buildFatherbotMessage from part_000: six picks with distinct seed
constants 3, 7, 11, 17, 23, 29, joined with newlines. -/
def buildFatherbotMessage (p : Prompts) (day : Int) (groupId : Int) : String :=
  let f := p.fatherbot
  let intro := getDailyItem day f.intros 3 groupId
  let title := getDailyItem day f.motivational_titles 7 groupId
  let quote := getDailyItem day f.quotes 11 groupId
  let reflection := getDailyItem day f.reflection_templates 17 groupId
  let checkin := getDailyItem day f.checkins 23 groupId
  let closing := getDailyItem day f.closing_messages 29 groupId
  String.intercalate "\n"
    [intro, "", title, "“" ++ quote ++ "”", "",
     "*Reflection:* " ++ reflection, "", "*Check-in:* " ++ checkin, "", closing]

/-- buildStudentMessage from part_000: same structure with seed constants
5, 9, 13, 19, 31, 37. -/
def buildStudentMessage (p : Prompts) (day : Int) (groupId : Int) : String :=
  let s := p.student
  let intro := getDailyItem day s.intros 5 groupId
  let title := getDailyItem day s.motivational_titles 9 groupId
  let quote := getDailyItem day s.quotes 13 groupId
  let reflection := getDailyItem day s.reflection_templates 19 groupId
  let checkin := getDailyItem day s.checkins 31 groupId
  let closing := getDailyItem day s.closing_messages 37 groupId
  String.intercalate "\n"
    [intro, "", title, "“" ++ quote ++ "”", "",
     "*Reflection:* " ++ reflection, "", "*Check-in:* " ++ checkin, "", closing]

-- ---------------------------------------------------------------------------
-- Delivery manager (src/unnamed/part_000, safeSendMessage / invalidGroups)
-- ---------------------------------------------------------------------------

/-- One response of the Telegram send capability to one send attempt, as
classified by safeSendMessage: success, an ETELEGRAM 429 with a retry_after
value, an ETELEGRAM 400 (chat not found), or any other error. -/
inductive TgResp where
  | ok
  | rateLimited (retryAfter : Nat)
  | badRequest
  | otherErr (msg : String)
deriving Repr, DecidableEq

/-- Observable outcome of one safeSendMessage call: the message object on
success, or the null result the source returns on 400 and on other errors. -/
inductive SendOutcome where
  | delivered
  | nullResult
deriving Repr, DecidableEq

/-- safeSendMessage from part_000, driven by the oracle list of capability
responses (one entry per attempt).  It returns the outcome, the updated
quarantine set `invalidGroups`, and the number of attempts made; `none` means
the oracle was exhausted while the retry recursion was still running (the
source keeps retrying on every 429 with no cap, sleeping retry_after seconds
between attempts; the sleep has no observable state).  A 400 adds the chat to
the quarantine set and returns null; any other error returns null without
touching the quarantine set. -/
def safeSendMessage (chatId : Int) (message : String) (q : List Int) :
    List TgResp → Option (SendOutcome × List Int × Nat)
  | [] => none
  | TgResp.ok :: _ => some (SendOutcome.delivered, q, 1)
  | TgResp.rateLimited _ :: rest =>
    match safeSendMessage chatId message q rest with
    | none => none
    | some (o, q2, n) => some (o, q2, n + 1)
  | TgResp.badRequest :: _ => some (SendOutcome.nullResult, chatId :: q, 1)
  | TgResp.otherErr _ :: _ => some (SendOutcome.nullResult, q, 1)

/-- True when a response list contains a non-rate-limit entry, i.e. when the
safeSendMessage retry recursion reaches a result on this oracle. -/
def respTerminates : List TgResp → Bool
  | [] => false
  | TgResp.rateLimited _ :: rest => respTerminates rest
  | _ :: _ => true

-- ---------------------------------------------------------------------------
-- Daily broadcast (src/unnamed/part_000, GROUPS and the 4AM cron handler)
-- ---------------------------------------------------------------------------

/-- The configured destination list of the final part_000 version. -/
def GROUPS : List Int :=
  [-1002729874032, -1002301644825, -1003239995492]

/-- The lesson chosen for a destination inside the cron handler: the one
hard-coded identity -1002301644825 gets the fatherbot message, every other
identity falls to the else branch and gets the student message. -/
def lessonFor (p : Prompts) (day : Int) (groupId : Int) : String :=
  if groupId = -1002301644825 then buildFatherbotMessage p day groupId
  else buildStudentMessage p day groupId

/-- Observable log of one broadcast pass: the groups the loop processed (in
order), the groups for which safeSendMessage was invoked, the groups whose
send succeeded, and the final quarantine set. -/
structure BroadcastLog where
  processed : List Int
  attempted : List Int
  delivered : List Int
  quarantine : List Int
deriving Repr, DecidableEq

/-- The daily-broadcast cron handler of part_000, as a fold over the group
list threading the quarantine set.  `resp g` is the capability oracle for
group `g`; `thr g = true` models an exception thrown while building the
content for `g`, caught by the per-iteration try/catch.  A quarantined group
is skipped; a group whose safeSendMessage never returns (oracle exhausted
while rate-limited) stalls the loop, so nothing after it is processed. -/
def dailyBroadcast (p : Prompts) (day : Int) (resp : Int → List TgResp) (thr : Int → Bool) :
    List Int → List Int → BroadcastLog
  | [], q => ⟨[], [], [], q⟩
  | g :: gs, q =>
    if g ∈ q then
      let rest := dailyBroadcast p day resp thr gs q
      { rest with processed := g :: rest.processed }
    else if thr g then
      let rest := dailyBroadcast p day resp thr gs q
      { rest with processed := g :: rest.processed }
    else
      match safeSendMessage g (lessonFor p day g) q (resp g) with
      | none => ⟨[g], [g], [], q⟩
      | some (o, q2, _) =>
        let rest := dailyBroadcast p day resp thr gs q2
        { processed := g :: rest.processed,
          attempted := g :: rest.attempted,
          delivered :=
            match o with
            | SendOutcome.delivered => g :: rest.delivered
            | SendOutcome.nullResult => rest.delivered,
          quarantine := rest.quarantine }

-- ---------------------------------------------------------------------------
-- Session registry (getThread in part_000 and src/index.js)
-- ---------------------------------------------------------------------------

/-- Lookup in the JS Map of threads keyed by chat identity. -/
def lookupThread : List (Int × Nat) → Int → Option Nat
  | [], _ => none
  | (c, t) :: rest, c2 => if c2 = c then some t else lookupThread rest c2

/-- The in-memory thread registry: the Map entries, the next thread id the
backend will hand out, and how many thread-creation calls were made. -/
structure Registry where
  threads : List (Int × Nat)
  nextThread : Nat
  createCalls : Nat
deriving Repr, DecidableEq

/-- getThread as a sequential (atomic) function: return the cached thread or
create one, store it and return it.  Thread ids are the backend counter. -/
def getThread (chatId : Int) (s : Registry) : Nat × Registry :=
  match lookupThread s.threads chatId with
  | some t => (t, s)
  | none =>
    (s.nextThread,
     { threads := (chatId, s.nextThread) :: s.threads,
       nextThread := s.nextThread + 1,
       createCalls := s.createCalls + 1 })

/-- Progress of one in-flight getThread call in the interleaved model.  In
the source, `threads.has(chatId)` and the start of
`openai.beta.threads.create()` happen atomically, then the task suspends at
the await; `threads.set` only runs when the task resumes. -/
inductive Phase where
  | start
  | creating (tid : Nat)
  | done (tid : Nat)
deriving Repr, DecidableEq

/-- One scheduler step of a getThread task for the given chat identity: from
`start`, either hit the cache or issue the backend creation call (counted
immediately, id reserved) and suspend; from `creating`, resume and store the
mapping. -/
def stepTask (chatId : Int) (reg : Registry) : Phase → Phase × Registry
  | Phase.start =>
    match lookupThread reg.threads chatId with
    | some t => (Phase.done t, reg)
    | none =>
      (Phase.creating reg.nextThread,
       { reg with nextThread := reg.nextThread + 1, createCalls := reg.createCalls + 1 })
  | Phase.creating tid =>
    (Phase.done tid, { reg with threads := (chatId, tid) :: reg.threads })
  | Phase.done t => (Phase.done t, reg)

/-- Two concurrent getThread callers A and B plus the shared registry. -/
structure ConcState where
  reg : Registry
  phaseA : Phase
  phaseB : Phase
deriving Repr, DecidableEq

/-- Run a schedule over the two tasks: `false` steps caller A (for chat
`cA`), `true` steps caller B (for chat `cB`). -/
def runSchedule (cA cB : Int) : List Bool → ConcState → ConcState
  | [], s => s
  | b :: rest, s =>
    if b then
      let pr := stepTask cB s.reg s.phaseB
      runSchedule cA cB rest { reg := pr.2, phaseA := s.phaseA, phaseB := pr.1 }
    else
      let pr := stepTask cA s.reg s.phaseA
      runSchedule cA cB rest { reg := pr.2, phaseA := pr.1, phaseB := s.phaseB }

/-- Empty registry, both callers not yet started. -/
def initConc : ConcState :=
  ⟨⟨[], 0, 0⟩, Phase.start, Phase.start⟩

-- ---------------------------------------------------------------------------
-- Conversation orchestrator (sendToAssistant in part_000 and src/index.js)
-- ---------------------------------------------------------------------------

/-- One content block of an output message; `text = some v` models a block
whose text object carries the string value `v` (possibly empty), `none`
models a block without a text object. -/
structure ContentBlock where
  text : Option String
deriving Repr, DecidableEq

/-- One output message of the run, newest first in the list returned by the
backend. -/
structure OutMsg where
  content : List ContentBlock
deriving Repr, DecidableEq

/-- Backend calls sendToAssistant can make, in order. -/
inductive BackendCall where
  | createThread
  | createMessage
  | createRun
  | listMessages
deriving Repr, DecidableEq

/-- The optional chain `messages.data[0]?.content?.[0]?.text?.value`. -/
def extractReply (data : List OutMsg) : Option String :=
  match data with
  | [] => none
  | m :: _ =>
    match m.content with
    | [] => none
    | b :: _ => b.text

/-- Fallback of part_000 when the reply payload is falsy. -/
def noResponseFallback : String := "⚠️ No response from assistant."

/-- The string src/index.js returns when the run status is not completed. -/
def troubleFallback : String := "⚠️ I'm having trouble thinking right now."

/-- The string src/index.js returns when extracting the reply throws. -/
def properFallback : String := "⚠️ Sorry, I couldn't form a proper response."

/-- sendToAssistant of part_000 as a function of whether the thread was
cached, the terminal run status and the output messages.  A status other
than "completed" throws (modelled as Except.error) with the status in the
message; on success the extracted payload is returned, with the JS `||`
falling back on an absent or empty payload.  The second component is the
trace of backend calls, which shows the run is started exactly once. -/
def sendToAssistant (hasThread : Bool) (status : String) (data : List OutMsg) :
    Except String String × List BackendCall :=
  let pre := (if hasThread then [] else [BackendCall.createThread]) ++
    [BackendCall.createMessage, BackendCall.createRun]
  if status = "completed" then
    let replyMessage := extractReply data
    (Except.ok (match replyMessage with
      | some s => if s = "" then noResponseFallback else s
      | none => noResponseFallback),
     pre ++ [BackendCall.listMessages])
  else
    (Except.error ("Assistant run failed: " ++ status), pre)

/-- sendToAssistant of src/index.js.  On a non-completed status it logs and
returns a fixed apology string (a normal return, not a throw).  On success it
evaluates `aiMsg.content[0].text.value` inside try/catch: any absent link in
the chain throws and yields the catch fallback, but a present empty value is
returned as is. -/
def sendToAssistantIndex (hasThread : Bool) (status : String) (data : List OutMsg) :
    Except String String × List BackendCall :=
  let pre := (if hasThread then [] else [BackendCall.createThread]) ++
    [BackendCall.createMessage, BackendCall.createRun]
  if status = "completed" then
    (Except.ok (match data with
      | [] => properFallback
      | m :: _ =>
        match m.content with
        | [] => properFallback
        | b :: _ =>
          match b.text with
          | none => properFallback
          | some v => v),
     pre ++ [BackendCall.listMessages])
  else
    (Except.ok troubleFallback, pre)

-- ---------------------------------------------------------------------------
-- Inbound webhook handlers (app.post in part_000 and src/index.js)
-- ---------------------------------------------------------------------------

/-- The fields of a Telegram update the handlers consume. -/
structure TgMessage where
  chatId : Int
  fromId : Int
  text : Option String
deriving Repr, DecidableEq

/-- An inbound update; `message = none` models an update without a message. -/
structure Update where
  message : Option TgMessage
deriving Repr, DecidableEq

/-- JS truthiness of `update.message && update.message.text`. -/
def hasText (u : Update) : Bool :=
  match u.message with
  | none => false
  | some m =>
    match m.text with
    | none => false
    | some t => decide (t ≠ "")

/-- Observable behaviour of one webhook invocation: whether the transport got
its 200, whether sendToAssistant was invoked, and the delivery-capability
calls made (destination and text), in order. -/
structure HandlerRun where
  acked : Bool
  orchCalled : Bool
  deliveryCalls : List (Int × String)
deriving Repr, DecidableEq

/-- The error reply part_000 sends from its catch block. -/
def errorReplyMain : String := "⚠️ Error processing your request."

/-- The error reply src/index.js sends from its catch block. -/
def errorReplyIndex : String := "⚠️ Something went wrong."

/-- The webhook handler of part_000.  `invalidGroups` is the process-wide
quarantine set, which this handler never reads (its sends go straight to
`bot.sendMessage`).  `orch` is the outcome of sendToAssistant (ok reply or
throw); `d1` tells whether the primary `bot.sendMessage` succeeds and `d2`
whether the catch-block `bot.sendMessage` succeeds.  Neither send is guarded
by its own catch, so a throwing fallback send escapes the handler before
`res.sendStatus(200)` runs. -/
def webhookHandler (invalidGroups : List Int) (u : Update) (orch : Except Unit String)
    (d1 d2 : Bool) : HandlerRun :=
  match u.message with
  | none => ⟨true, false, []⟩
  | some m =>
    match m.text with
    | none => ⟨true, false, []⟩
    | some t =>
      if t = "" then ⟨true, false, []⟩
      else
        match orch with
        | Except.ok reply =>
          if d1 then ⟨true, true, [(m.chatId, reply)]⟩
          else if d2 then ⟨true, true, [(m.chatId, reply), (m.chatId, errorReplyMain)]⟩
          else ⟨false, true, [(m.chatId, reply), (m.chatId, errorReplyMain)]⟩
        | Except.error _ =>
          if d2 then ⟨true, true, [(m.chatId, errorReplyMain)]⟩
          else ⟨false, true, [(m.chatId, errorReplyMain)]⟩

/-- The webhook handler of src/index.js.  Both sends carry their own
`.catch`, so the handler always reaches `res.sendStatus(200)` whatever the
orchestration or delivery outcome. -/
def webhookHandlerIndex (u : Update) (orch : Except Unit String) : HandlerRun :=
  match u.message with
  | none => ⟨true, false, []⟩
  | some m =>
    match m.text with
    | none => ⟨true, false, []⟩
    | some t =>
      if t = "" then ⟨true, false, []⟩
      else
        match orch with
        | Except.ok reply => ⟨true, true, [(m.chatId, reply)]⟩
        | Except.error _ => ⟨true, true, [(m.chatId, errorReplyIndex)]⟩

/-- A tiny concrete content table, used to instantiate theorems. -/
def promptsEx : Prompts :=
  ⟨⟨["fi"], ["ft"], ["fq"], ["fr"], ["fc"], ["fz"]⟩,
   ⟨["si"], ["st"], ["sq"], ["sr"], ["sc"], ["sz"]⟩⟩

-- ---------------------------------------------------------------------------
-- Helper lemmas on truncating remainder (the JS % operator)
-- ---------------------------------------------------------------------------

/-- Truncating remainder by a positive modulus is greater than its negation. -/
theorem tmod_lower_bound (a : Int) {n : Int} (hn : 0 < n) : -n < a.tmod n := by
  cases a with
  | ofNat m =>
    have h := Int.tmod_nonneg n (show (0:Int) ≤ Int.ofNat m from Int.ofNat_nonneg m)
    omega
  | negSucc m =>
    cases n with
    | ofNat k =>
      have hk : 0 < k := Int.ofNat_lt.mp hn
      have hdef : Int.tmod (Int.negSucc m) (Int.ofNat k) = -(Int.ofNat ((m+1) % k)) := rfl
      have hlt : (m + 1) % k < k := Nat.mod_lt _ hk
      rw [hdef]
      exact Int.neg_lt_neg (Int.ofNat_lt.mpr hlt)
    | negSucc k =>
      have := Int.negSucc_lt_zero k
      omega

/-- The double-remainder normalisation of the picker equals the Euclidean
remainder: for a positive modulus, ((a tmod n) + n) tmod n = a % n. -/
theorem idx_eq_emod (a : Int) {n : Int} (hn : 0 < n) : (a.tmod n + n).tmod n = a % n := by
  have hlow := tmod_lower_bound a hn
  have hx : (0:Int) ≤ a.tmod n + n := by omega
  rw [Int.tmod_eq_emod hx (le_of_lt hn)]
  have h1 : (a.tmod n + n) % n = a.tmod n % n := by
    have := Int.add_mul_emod_self_left (a.tmod n) n 1
    simpa using this
  rw [h1]
  have h2 : a.tmod n = a - n * a.tdiv n := Int.tmod_def a n
  rw [h2, Int.sub_emod, Int.mul_emod_right]
  simp [Int.sub_emod]

/-- Claim C7: the content picker never indexes out of bounds — on an empty
list it returns the empty string without failing, and on a non-empty list of
length n the computed index ((base tmod n) + n) tmod n is non-negative and
less than n, so the returned value is an element of the list, for every day,
seed offset and destination identity (negative identities defined). -/
theorem getDailyItem_in_bounds (day seed groupId : Int) (arr : List String) :
    (arr = [] → getDailyItem day arr seed groupId = "") ∧
    (arr ≠ [] →
      0 ≤ (((day + seed + |groupId|).tmod (arr.length : Int) + (arr.length : Int)).tmod (arr.length : Int)) ∧
      (((day + seed + |groupId|).tmod (arr.length : Int) + (arr.length : Int)).tmod (arr.length : Int)) < (arr.length : Int) ∧
      getDailyItem day arr seed groupId ∈ arr) := by
  constructor
  · intro h
    subst h
    simp [getDailyItem]
  · intro h
    have hlen : 0 < arr.length := List.length_pos.mpr h
    have hn : (0:Int) < (arr.length : Int) := by exact_mod_cast hlen
    have hidx := idx_eq_emod (day + seed + |groupId|) hn
    have hnz : (arr.length : Int) ≠ 0 := ne_of_gt hn
    have h0 : 0 ≤ (day + seed + |groupId|) % (arr.length : Int) :=
      Int.emod_nonneg _ hnz
    have h1 : (day + seed + |groupId|) % (arr.length : Int) < (arr.length : Int) :=
      Int.emod_lt_of_pos _ hn
    refine ⟨by rw [hidx]; exact h0, by rw [hidx]; exact h1, ?_⟩
    unfold getDailyItem
    rw [if_neg (by omega)]
    have htn : (((day + seed + |groupId|).tmod (arr.length : Int) + (arr.length : Int)).tmod (arr.length : Int)).toNat < arr.length := by
      rw [hidx] at *
      omega
    rw [List.getD_eq_getElem arr "" htn]
    exact List.getElem_mem htn

/-- Witness for claim C7 at concrete inputs: the empty list yields the empty
string, and a two-element list with a negative destination yields one of its
elements. -/
theorem getDailyItem_in_bounds_witness :
    getDailyItem 5 [] 3 (-9) = "" ∧ getDailyItem 5 ["x", "y"] 3 (-9) ∈ ["x", "y"] :=
  ⟨(getDailyItem_in_bounds 5 3 (-9) []).1 rfl,
   ((getDailyItem_in_bounds 5 3 (-9) ["x", "y"]).2 (by decide)).2.2⟩

/-- Claim C8: for every non-empty list, seed offset and destination, the
picker is periodic in the day index with period equal to the list length —
advancing the day by exactly the length selects the identical item. -/
theorem getDailyItem_periodic (day seed groupId : Int) (arr : List String) (h : arr ≠ []) :
    getDailyItem (day + (arr.length : Int)) arr seed groupId =
      getDailyItem day arr seed groupId := by
  have hlen : 0 < arr.length := List.length_pos.mpr h
  have hn : (0:Int) < (arr.length : Int) := by exact_mod_cast hlen
  unfold getDailyItem
  rw [if_neg (by omega), if_neg (by omega)]
  have h1 := idx_eq_emod (day + (arr.length : Int) + seed + |groupId|) hn
  have h2 := idx_eq_emod (day + seed + |groupId|) hn
  have h3 : (day + (arr.length : Int) + seed + |groupId|) % (arr.length : Int) =
      (day + seed + |groupId|) % (arr.length : Int) := by
    have := Int.add_mul_emod_self_left (day + seed + |groupId|) (arr.length : Int) 1
    have harr : day + (arr.length : Int) + seed + |groupId| =
        day + seed + |groupId| + (arr.length : Int) * 1 := by ring
    rw [harr, this]
  simp only [h1, h2, h3]

/-- Witness for claim C8: the three-element list of end-to-end scenario 5
with seed offset 7 and destination 0, three days apart, picks the same item. -/
theorem getDailyItem_periodic_witness :
    getDailyItem (100 + ((["A", "B", "C"] : List String).length : Int)) ["A", "B", "C"] 7 0 =
      getDailyItem 100 ["A", "B", "C"] 7 0 :=
  getDailyItem_periodic 100 7 0 ["A", "B", "C"] (by decide)

-- ---------------------------------------------------------------------------
-- Delivery manager: retry behaviour (claim C1)
-- ---------------------------------------------------------------------------

/-- Claim C1 (counterexample): with six consecutive rate-limit responses
followed by a success, safeSendMessage makes seven attempts — six retries,
past the claimed cap of five — and then succeeds silently instead of failing
loudly; no retry cap exists in the source. -/
theorem safeSendMessage_cap_counterexample :
    safeSendMessage 5 "m" [] (List.replicate 6 (TgResp.rateLimited 1) ++ [TgResp.ok]) =
      some (SendOutcome.delivered, [], 7) := rfl

/-- Claim C1 (amended): safeSendMessage retries once per rate-limit signal
with no cap at all — after k consecutive rate-limit responses it is still
retrying (no result, no loud failure), and k rate-limit responses followed by
a success yield exactly k + 1 attempts and a quiet success, for every k. -/
theorem safeSendMessage_retries_per_signal (chatId : Int) (message : String)
    (q : List Int) (k : Nat) :
    safeSendMessage chatId message q (List.replicate k (TgResp.rateLimited 1)) = none ∧
    safeSendMessage chatId message q (List.replicate k (TgResp.rateLimited 1) ++ [TgResp.ok]) =
      some (SendOutcome.delivered, q, k + 1) := by
  induction k with
  | zero => exact ⟨rfl, rfl⟩
  | succ n ih =>
    constructor
    · rw [List.replicate_succ]
      simp only [safeSendMessage, ih.1]
    · rw [List.replicate_succ, List.cons_append]
      simp only [safeSendMessage, ih.2]

-- ---------------------------------------------------------------------------
-- Delivery manager: quarantine bookkeeping lemmas
-- ---------------------------------------------------------------------------

/-- A completed safeSendMessage call leaves the quarantine set unchanged or
adds exactly its own chat identity in front. -/
theorem safeSendMessage_quarantine_cases (chatId : Int) (message : String) :
    ∀ (rs : List TgResp) (q : List Int) (o : SendOutcome) (q2 : List Int) (n : Nat),
      safeSendMessage chatId message q rs = some (o, q2, n) →
      q2 = q ∨ q2 = chatId :: q := by
  intro rs
  induction rs with
  | nil =>
    intro q o q2 n h
    simp [safeSendMessage] at h
  | cons r rest ih =>
    intro q o q2 n h
    cases r with
    | ok =>
      simp only [safeSendMessage, Option.some.injEq, Prod.mk.injEq] at h
      exact Or.inl h.2.1.symm
    | rateLimited ra =>
      simp only [safeSendMessage] at h
      cases hrec : safeSendMessage chatId message q rest with
      | none => rw [hrec] at h; simp at h
      | some val =>
        obtain ⟨o2, q3, n2⟩ := val
        rw [hrec] at h
        simp only [Option.some.injEq, Prod.mk.injEq] at h
        obtain ⟨ho, hq, hn⟩ := h
        subst hq
        exact ih q o2 q3 n2 hrec
    | badRequest =>
      simp only [safeSendMessage, Option.some.injEq, Prod.mk.injEq] at h
      exact Or.inr h.2.1.symm
    | otherErr m =>
      simp only [safeSendMessage, Option.some.injEq, Prod.mk.injEq] at h
      exact Or.inl h.2.1.symm

/-- On a terminating oracle, safeSendMessage returns a result. -/
theorem safeSendMessage_isSome (chatId : Int) (message : String) (q : List Int)
    (rs : List TgResp) (h : respTerminates rs = true) :
    (safeSendMessage chatId message q rs).isSome := by
  induction rs with
  | nil => simp [respTerminates] at h
  | cons r rest ih =>
    cases r with
    | ok => simp [safeSendMessage]
    | rateLimited ra =>
      have h2 : respTerminates rest = true := h
      have := ih h2
      simp only [safeSendMessage]
      cases hrec : safeSendMessage chatId message q rest with
      | none => rw [hrec] at this; simp at this
      | some val => simp
    | badRequest => simp [safeSendMessage]
    | otherErr m => simp [safeSendMessage]

-- ---------------------------------------------------------------------------
-- Broadcast loop lemmas
-- ---------------------------------------------------------------------------

/-- On terminating oracles the broadcast loop processes every configured
group, in order, whatever the per-group outcomes are. -/
theorem dailyBroadcast_processed (p : Prompts) (day : Int) (resp : Int → List TgResp)
    (thr : Int → Bool) :
    ∀ (groups q : List Int),
      (∀ g ∈ groups, respTerminates (resp g) = true) →
      (dailyBroadcast p day resp thr groups q).processed = groups := by
  intro groups
  induction groups with
  | nil => intro q h; rfl
  | cons g gs ih =>
    intro q h
    have hterm : respTerminates (resp g) = true := h g (List.mem_cons_self g gs)
    have htail : ∀ g2 ∈ gs, respTerminates (resp g2) = true :=
      fun g2 hg2 => h g2 (List.mem_cons_of_mem g hg2)
    by_cases hq : g ∈ q
    · simp only [dailyBroadcast, if_pos hq]
      simp [ih q htail]
    · by_cases ht : thr g = true
      · simp only [dailyBroadcast, if_neg hq, if_pos ht]
        simp [ih q htail]
      · have hsome := safeSendMessage_isSome g (lessonFor p day g) q (resp g) hterm
        cases hsend : safeSendMessage g (lessonFor p day g) q (resp g) with
        | none => rw [hsend] at hsome; simp at hsome
        | some val =>
          obtain ⟨o, q2, n⟩ := val
          simp only [dailyBroadcast, if_neg hq, if_neg ht, hsend]
          simp [ih q2 htail]

/-- A group that is in the quarantine set when the pass starts is never
handed to safeSendMessage during the pass. -/
theorem dailyBroadcast_not_attempted (p : Prompts) (day : Int) (resp : Int → List TgResp)
    (thr : Int → Bool) :
    ∀ (groups q : List Int) (g : Int), g ∈ q →
      g ∉ (dailyBroadcast p day resp thr groups q).attempted := by
  intro groups
  induction groups with
  | nil => intro q g hg; simp [dailyBroadcast]
  | cons h2 gs ih =>
    intro q g hg
    by_cases hq : h2 ∈ q
    · simp only [dailyBroadcast, if_pos hq]
      simpa using ih q g hg
    · have hne : g ≠ h2 := fun he => hq (he ▸ hg)
      by_cases ht : thr h2 = true
      · simp only [dailyBroadcast, if_neg hq, if_pos ht]
        simpa using ih q g hg
      · cases hsend : safeSendMessage h2 (lessonFor p day h2) q (resp h2) with
        | none =>
          simp only [dailyBroadcast, if_neg hq, if_neg ht, hsend]
          simp [hne]
        | some val =>
          obtain ⟨o, q2, n⟩ := val
          have hq2 : g ∈ q2 := by
            rcases safeSendMessage_quarantine_cases h2 (lessonFor p day h2)
              (resp h2) q o q2 n hsend with h | h
            · rw [h]; exact hg
            · rw [h]; exact List.mem_cons_of_mem _ hg
          simp only [dailyBroadcast, if_neg hq, if_neg ht, hsend]
          cases o <;> simp [hne, ih q2 g hq2]

/-- Every group that is neither quarantined at the start of the pass nor hit
by a content-building exception gets a delivery attempt, whatever failures
the other groups produce, provided the group list has no duplicates and the
oracles terminate. -/
theorem dailyBroadcast_attempts (p : Prompts) (day : Int) (resp : Int → List TgResp)
    (thr : Int → Bool) :
    ∀ (groups q : List Int), groups.Nodup →
      (∀ g2 ∈ groups, respTerminates (resp g2) = true) →
      ∀ g ∈ groups, g ∉ q → thr g = false →
        g ∈ (dailyBroadcast p day resp thr groups q).attempted := by
  intro groups
  induction groups with
  | nil => intro q hnd hterm g hg; simp at hg
  | cons h2 gs ih =>
    intro q hnd hterm g hg hq hthr
    have htailterm : ∀ g2 ∈ gs, respTerminates (resp g2) = true :=
      fun g2 hg2 => hterm g2 (List.mem_cons_of_mem h2 hg2)
    rcases List.mem_cons.mp hg with rfl | hgs
    · have hsome := safeSendMessage_isSome g (lessonFor p day g) q (resp g)
        (hterm g (List.mem_cons_self g gs))
      cases hsend : safeSendMessage g (lessonFor p day g) q (resp g) with
      | none => rw [hsend] at hsome; simp at hsome
      | some val =>
        obtain ⟨o, q2, n⟩ := val
        simp only [dailyBroadcast, if_neg hq, hthr, Bool.false_eq_true, if_false, hsend]
        simp
    · have hne : g ≠ h2 := by
        rintro rfl
        exact (List.nodup_cons.mp hnd).1 hgs
      have hndtail : gs.Nodup := (List.nodup_cons.mp hnd).2
      by_cases hqh : h2 ∈ q
      · simp only [dailyBroadcast, if_pos hqh]
        simpa using ih q hndtail htailterm g hgs hq hthr
      · by_cases ht : thr h2 = true
        · simp only [dailyBroadcast, if_neg hqh, if_pos ht]
          simpa using ih q hndtail htailterm g hgs hq hthr
        · have hsome := safeSendMessage_isSome h2 (lessonFor p day h2) q (resp h2)
            (hterm h2 (List.mem_cons_self h2 gs))
          cases hsend : safeSendMessage h2 (lessonFor p day h2) q (resp h2) with
          | none => rw [hsend] at hsome; simp at hsome
          | some val =>
            obtain ⟨o, q2, n⟩ := val
            have hq2 : g ∉ q2 := by
              rcases safeSendMessage_quarantine_cases h2 (lessonFor p day h2)
                (resp h2) q o q2 n hsend with h | h
              · rw [h]; exact hq
              · rw [h]; simp [hne, hq]
            simp only [dailyBroadcast, if_neg hqh, if_neg ht, hsend]
            simp [ih q2 hndtail htailterm g hgs hq2 hthr]

-- ---------------------------------------------------------------------------
-- Claims C2, C9, C10
-- ---------------------------------------------------------------------------

/-- Claim C2 (counterexample): with the destination -1002301644825 in the
quarantine set, an inbound update from that chat still produces a delivery
call for it — the part_000 webhook handler sends through bot.sendMessage
directly and never consults the quarantine set, so a quarantined destination
is reached again by that component. -/
theorem webhook_sends_to_quarantined_counterexample :
    (-1002301644825 : Int) ∈ [(-1002301644825 : Int)] ∧
    (webhookHandler [(-1002301644825 : Int)]
        ⟨some ⟨-1002301644825, 99, some "hello"⟩⟩ (Except.ok "reply") true true).deliveryCalls =
      [(-1002301644825, "reply")] :=
  ⟨List.mem_singleton.mpr rfl, rfl⟩

/-- Claim C2 (amended): once a destination is in the quarantine set, the
daily-broadcast loop never hands it to safeSendMessage again — but only that
loop consults the set; the inbound webhook path does not. -/
theorem dailyBroadcast_skips_quarantined (p : Prompts) (day : Int)
    (resp : Int → List TgResp) (thr : Int → Bool) (groups q0 : List Int) (g : Int)
    (hg : g ∈ q0) :
    g ∉ (dailyBroadcast p day resp thr groups q0).attempted :=
  dailyBroadcast_not_attempted p day resp thr groups q0 g hg

/-- Witness for claim C2 at concrete inputs: the fatherbot group, already
quarantined, is not attempted in a pass over the configured GROUPS list. -/
theorem dailyBroadcast_skips_quarantined_witness :
    (-1002301644825 : Int) ∉
      (dailyBroadcast promptsEx 10 (fun _ => [TgResp.ok]) (fun _ => false)
        GROUPS [(-1002301644825 : Int)]).attempted :=
  dailyBroadcast_skips_quarantined promptsEx 10 (fun _ => [TgResp.ok]) (fun _ => false)
    GROUPS [(-1002301644825 : Int)] (-1002301644825) (List.mem_singleton.mpr rfl)

/-- Claim C9: in one broadcast pass over duplicate-free groups with
terminating send oracles, no per-group failure aborts the loop: every
configured group is processed, and every group that is neither quarantined at
the start nor hit by its own content-building exception gets its delivery
attempt, regardless of the outcomes (exceptions, 400s, other errors, null
results) at the other groups. -/
theorem dailyBroadcast_isolates_failures (p : Prompts) (day : Int)
    (resp : Int → List TgResp) (thr : Int → Bool) (groups q0 : List Int)
    (hnd : groups.Nodup)
    (hterm : ∀ g ∈ groups, respTerminates (resp g) = true) :
    (dailyBroadcast p day resp thr groups q0).processed = groups ∧
    ∀ g ∈ groups, g ∉ q0 → thr g = false →
      g ∈ (dailyBroadcast p day resp thr groups q0).attempted :=
  ⟨dailyBroadcast_processed p day resp thr groups q0 hterm,
   fun g hg hq hthr => dailyBroadcast_attempts p day resp thr groups q0 hnd hterm g hg hq hthr⟩

/-- Witness for claim C9, mirroring end-to-end scenario 4: three configured
groups, the fatherbot group pre-quarantined, the first group failing with an
unclassified error — the loop still processes all three groups and the third
group gets its attempt. -/
theorem dailyBroadcast_isolates_failures_witness :
    (dailyBroadcast promptsEx 10
        (fun g => if g = -1002729874032 then [TgResp.otherErr "boom"] else [TgResp.ok])
        (fun _ => false) GROUPS [(-1002301644825 : Int)]).processed = GROUPS ∧
    (-1003239995492 : Int) ∈
      (dailyBroadcast promptsEx 10
        (fun g => if g = -1002729874032 then [TgResp.otherErr "boom"] else [TgResp.ok])
        (fun _ => false) GROUPS [(-1002301644825 : Int)]).attempted := by
  have h := dailyBroadcast_isolates_failures promptsEx 10
    (fun g => if g = -1002729874032 then [TgResp.otherErr "boom"] else [TgResp.ok])
    (fun _ => false) GROUPS [(-1002301644825 : Int)] (by decide) (by decide)
  exact ⟨h.1, h.2 (-1003239995492) (by decide) (by decide) rfl⟩

/-- Claim C10: the broadcast role mapping is a default, not a total registry
— the lesson built for the one hard-coded identity -1002301644825 is the
fatherbot message, and the lesson built for every other identity, configured
or not, is the student message; no identity fails or is skipped for lacking
a role entry. -/
theorem lessonFor_role_mapping (p : Prompts) (day : Int) (g : Int)
    (h : g ≠ -1002301644825) :
    lessonFor p day (-1002301644825) = buildFatherbotMessage p day (-1002301644825) ∧
    lessonFor p day g = buildStudentMessage p day g := by
  constructor
  · simp [lessonFor]
  · simp [lessonFor, h]

/-- Witness for claim C10 at concrete inputs: identity 42, which is not in
the configured list, gets the student message while the hard-coded identity
gets the fatherbot message. -/
theorem lessonFor_role_mapping_witness :
    lessonFor promptsEx 10 (-1002301644825) = buildFatherbotMessage promptsEx 10 (-1002301644825) ∧
    lessonFor promptsEx 10 42 = buildStudentMessage promptsEx 10 42 :=
  lessonFor_role_mapping promptsEx 10 42 (by decide)

-- ---------------------------------------------------------------------------
-- Claim C3: session registry
-- ---------------------------------------------------------------------------

/-- Claim C3 (counterexample): two concurrent getThread callers for the same
identity 7, both checking the cache before either stores its thread, make
two backend creation calls and obtain two different handles — the schedule
A-check, B-check, A-store, B-store refutes the single-creation guarantee. -/
theorem getThread_concurrent_double_create :
    (runSchedule 7 7 [false, true, false, true] initConc).reg.createCalls = 2 ∧
    (runSchedule 7 7 [false, true, false, true] initConc).phaseA = Phase.done 0 ∧
    (runSchedule 7 7 [false, true, false, true] initConc).phaseB = Phase.done 1 :=
  ⟨rfl, rfl, rfl⟩

/-- Claim C3 (amended): sequentially, getThread is idempotent — a second call
for the same identity returns the same handle and the same state, so it makes
no further backend creation call; the single-creation guarantee fails only
under interleaved concurrent callers. -/
theorem getThread_idempotent (chatId : Int) (s : Registry) :
    getThread chatId (getThread chatId s).2 = getThread chatId s ∧
    (getThread chatId (getThread chatId s).2).2.createCalls =
      (getThread chatId s).2.createCalls := by
  have hmain : getThread chatId (getThread chatId s).2 = getThread chatId s := by
    cases hl : lookupThread s.threads chatId with
    | some t =>
      simp only [getThread, hl]
    | none =>
      have hl2 : lookupThread ((chatId, s.nextThread) :: s.threads) chatId =
          some s.nextThread := by
        simp [lookupThread]
      simp only [getThread, hl, hl2]
  exact ⟨hmain, by rw [hmain]⟩

-- ---------------------------------------------------------------------------
-- Claims C4 and C6: orchestrator failure and fallback semantics
-- ---------------------------------------------------------------------------

/-- Claim C4 (counterexample): on the terminal status "failed", the
src/index.js sendToAssistant returns the reply value "I'm having trouble
thinking right now" instead of surfacing a failure to its caller. -/
theorem sendToAssistantIndex_returns_apology :
    "failed" ≠ "completed" ∧
    (sendToAssistantIndex true "failed" []).1 = Except.ok troubleFallback :=
  ⟨by decide, rfl⟩

/-- Claim C4 (amended): on every terminal status other than "completed", the
part_000 sendToAssistant throws with the status in the message and starts
exactly one run, while the src/index.js variant also starts exactly one run
but returns a fixed apology string to its caller instead of failing. -/
theorem sendToAssistant_run_failure_semantics (hasThread : Bool) (status : String)
    (data : List OutMsg) (h : status ≠ "completed") :
    (sendToAssistant hasThread status data).1 =
      Except.error ("Assistant run failed: " ++ status) ∧
    (sendToAssistant hasThread status data).2.count BackendCall.createRun = 1 ∧
    (sendToAssistantIndex hasThread status data).1 = Except.ok troubleFallback ∧
    (sendToAssistantIndex hasThread status data).2.count BackendCall.createRun = 1 := by
  cases hasThread <;>
    simp [sendToAssistant, sendToAssistantIndex, h, List.count_cons, List.count_nil]

/-- Witness for claim C4 on the concrete terminal status "failed". -/
theorem sendToAssistant_run_failure_semantics_witness :
    (sendToAssistant true "failed" []).1 =
      Except.error ("Assistant run failed: " ++ "failed") ∧
    (sendToAssistant true "failed" []).2.count BackendCall.createRun = 1 ∧
    (sendToAssistantIndex true "failed" []).1 = Except.ok troubleFallback ∧
    (sendToAssistantIndex true "failed" []).2.count BackendCall.createRun = 1 :=
  sendToAssistant_run_failure_semantics true "failed" [] (by decide)

/-- Claim C6 (counterexample): when the run completes and the newest output
message carries a present but empty text payload, the src/index.js
sendToAssistant returns the empty reply itself, not a fixed fallback
string. -/
theorem sendToAssistantIndex_empty_payload :
    (sendToAssistantIndex true "completed" [⟨[⟨some ""⟩]⟩]).1 = Except.ok "" := rfl

/-- Claim C6 (amended): when the run completes and the extracted payload is
absent or empty, the part_000 sendToAssistant returns its fixed fallback
string; the src/index.js variant returns its fixed fallback string when the
payload is absent (the extraction chain throws), but not when the payload is
present and empty. -/
theorem sendToAssistant_fallback_on_empty (hasThread : Bool) (data : List OutMsg)
    (h : extractReply data = none ∨ extractReply data = some "") :
    (sendToAssistant hasThread "completed" data).1 = Except.ok noResponseFallback ∧
    (extractReply data = none →
      (sendToAssistantIndex hasThread "completed" data).1 = Except.ok properFallback) := by
  constructor
  · rcases h with h | h <;> simp [sendToAssistant, h]
  · intro h0
    cases data with
    | nil => simp [sendToAssistantIndex]
    | cons m rest =>
      cases hc : m.content with
      | nil => simp [sendToAssistantIndex, hc]
      | cons b bs =>
        cases hb : b.text with
        | none => simp [sendToAssistantIndex, hc, hb]
        | some v =>
          exfalso
          simp [extractReply, hc, hb] at h0

/-- Witness for claim C6: an empty output-message list yields both fixed
fallback strings. -/
theorem sendToAssistant_fallback_on_empty_witness :
    (sendToAssistant true "completed" []).1 = Except.ok noResponseFallback ∧
    (sendToAssistantIndex true "completed" []).1 = Except.ok properFallback := by
  have h := sendToAssistant_fallback_on_empty true [] (Or.inl rfl)
  exact ⟨h.1, h.2 rfl⟩

-- ---------------------------------------------------------------------------
-- Claim C5: inbound handler acknowledgment
-- ---------------------------------------------------------------------------

/-- Claim C5 (counterexample): a text update whose orchestration throws and
whose catch-block fallback send also throws is never acknowledged — the
part_000 handler has no catch around the fallback bot.sendMessage, so the
exception escapes before res.sendStatus(200). -/
theorem webhookHandler_no_ack_counterexample :
    (webhookHandler [] ⟨some ⟨42, 7, some "hello"⟩⟩ (Except.error ()) true false).acked
      = false := rfl

/-- Claim C5 (amended): an update lacking text is acknowledged with no
orchestrator and no delivery call by both handlers; for a text update the
part_000 handler acknowledges exactly when the primary path succeeded
(orchestration ok and first send ok) or the catch-block fallback send
succeeded, while the src/index.js handler, whose sends carry their own
catch, always acknowledges. -/
theorem webhookHandler_ack_semantics (q : List Int) (u : Update)
    (orch : Except Unit String) (d1 d2 : Bool) :
    (hasText u = false →
      webhookHandler q u orch d1 d2 = ⟨true, false, []⟩ ∧
      webhookHandlerIndex u orch = ⟨true, false, []⟩) ∧
    (hasText u = true →
      ((webhookHandler q u orch d1 d2).acked = true ↔
        ((∃ r, orch = Except.ok r) ∧ d1 = true) ∨ d2 = true)) ∧
    (webhookHandlerIndex u orch).acked = true := by
  obtain ⟨msg⟩ := u
  cases msg with
  | none => simp [hasText, webhookHandler, webhookHandlerIndex]
  | some m =>
    cases hm : m.text with
    | none => simp [hasText, webhookHandler, webhookHandlerIndex, hm]
    | some t =>
      by_cases ht : t = ""
      · subst ht
        simp [hasText, webhookHandler, webhookHandlerIndex, hm]
      · cases orch with
        | ok r =>
          cases d1 <;> cases d2 <;>
            simp [hasText, webhookHandler, webhookHandlerIndex, hm, ht]
        | error e =>
          cases d1 <;> cases d2 <;>
            simp [hasText, webhookHandler, webhookHandlerIndex, hm, ht]

/-- Witness for claim C5 at concrete inputs: an update without a message is
acknowledged with no calls, and a text update whose orchestration and first
send succeed is acknowledged even though the fallback send would fail. -/
theorem webhookHandler_ack_semantics_witness :
    webhookHandler [] ⟨none⟩ (Except.error ()) true true = ⟨true, false, []⟩ ∧
    (webhookHandler [] ⟨some ⟨42, 7, some "hi"⟩⟩ (Except.ok "r") true false).acked = true := by
  have h1 := (webhookHandler_ack_semantics [] ⟨none⟩ (Except.error ()) true true).1 rfl
  have h2 := (webhookHandler_ack_semantics [] ⟨some ⟨42, 7, some "hi"⟩⟩
    (Except.ok "r") true false).2.1 (by decide)
  exact ⟨h1.1, h2.mpr (Or.inl ⟨⟨"r", rfl⟩, rfl⟩)⟩
